import Mathlib

/-!
Shallow embedding of the `PrinterService` render-and-assemble pipeline
(`printer.service.ts`): the retry orchestration in `printResume` /
`printPreview`, the layout merge, capture branches, page-buffer assembly
and session teardown of `generateResume` / `generatePreview`, and the
loopback-URL rewriting shared by both.
-/

namespace Printer

/-- One logical page of the resume layout: a two-column list of section
keys, as stored in `resume.data.metadata.layout` (the code reads exactly
`page[0]` and `page[1]` and builds two-element arrays). -/
abbrev ColumnLayout := List String × List String

/-- A captured PDF buffer.  We track each buffer as the list of physical
pages it contains, a page being identified by the layout content the
renderer was showing for it (`data-page` container contents). -/
abbrev PageBuffer := List ColumnLayout

/-- The custom-CSS block `resume.data.metadata.css`. -/
structure CssBlock where
  visible : Bool
  value : String
  deriving Repr, DecidableEq

/-- The metadata the pipeline reads: the ordered layout of logical pages
and the CSS block. -/
structure Metadata where
  layout : List ColumnLayout
  css : CssBlock
  deriving Repr, DecidableEq

/-- The `data` payload of the resume DTO (fields other than `metadata`
are consumed only by the excluded template renderer; `extra` stands for
them so that mutation of `metadata` is observable separately). -/
structure ResumeData where
  metadata : Metadata
  extra : String
  deriving Repr, DecidableEq

/-- The `ResumeDto` passed to `printResume` / `generateResume`. -/
structure ResumeDto where
  id : String
  userId : String
  title : String
  data : ResumeData
  deriving Repr, DecidableEq

/-- The optional physical format argument of `generateResume`. -/
inductive PaperFormat where
  | A4
  | Letter
  deriving Repr, DecidableEq

/-- The merge done in `generateResume` when `format` is absent:
`layout.reduce((acc, page) => [[...acc[0], ...page[0]], [...acc[1], ...page[1]]], [[], []])`
— column-wise concatenation of every logical page into one page. -/
def mergedPage (layout : List ColumnLayout) : ColumnLayout :=
  layout.foldl (fun acc page => (acc.1 ++ page.1, acc.2 ++ page.2)) ([], [])

/-- The in-place update `resume.data.metadata.layout = [mergedPage]`
performed on the input DTO when `format` is not provided; with a format
the DTO is left alone. -/
def applyWebMerge (format : Option PaperFormat) (resume : ResumeDto) : ResumeDto :=
  match format with
  | none => { resume with data.metadata.layout := [mergedPage resume.data.metadata.layout] }
  | some _ => resume

/-- The pdf-lib assembly loop of `generateResume`:
`for (const element of pagesBuffer) { ... copyPages ... forEach(addPage) }`
starting from an empty `PDFDocument` — every page of every buffer is
appended, in input order, unmodified. -/
def assemblePdf (pagesBuffer : List PageBuffer) : List ColumnLayout :=
  pagesBuffer.foldl (fun pdf element => pdf ++ element) []

/-- What one run of `generateResume` produces, beyond the uploaded URL:
the DTO as the caller sees it afterwards (the merge mutates it in
place), the `numberPages` the renderer is told, the captured
`pagesBuffer`, and the assembled final document. -/
structure GenerateOutcome where
  resumeAfter : ResumeDto
  numberPages : Nat
  pagesBuffer : List PageBuffer
  finalDocument : List ColumnLayout
  deriving Repr, DecidableEq

/-- The capture pipeline of `generateResume` at the layout level.
With `format` set: the seeded layout keeps its N pages, the injected CSS
forces a page break after every `[data-page]` container, and a single
`page.pdf({ format })` call captures one buffer holding one physical
page per logical page.  Without `format`: the layout is first collapsed
to `[mergedPage]`, `numberPages` is read AFTER that collapse, and the
loop `for (index = 1; index <= numberPages; index++) processPage(index)`
pushes one single-page buffer per remaining logical page (container
`index` renders `layout[index - 1]`). -/
def generateResumeModel (format : Option PaperFormat) (resume : ResumeDto) : GenerateOutcome :=
  let resumeM := applyWebMerge format resume
  let numberPages := resumeM.data.metadata.layout.length
  let pagesBuffer : List PageBuffer :=
    match format with
    | some _ => [resumeM.data.metadata.layout]
    | none => resumeM.data.metadata.layout.map (fun page => [page])
  { resumeAfter := resumeM
    numberPages := numberPages
    pagesBuffer := pagesBuffer
    finalDocument := assemblePdf pagesBuffer }

/-!
Retry orchestration.  `printResume` and `printPreview` both wrap one
attempt in `retry(fn, { retries: 3, randomize: true, onRetry })` from
the `async-retry` package: the attempt callback is invoked with an
attempt number starting at 1; with `retries: R` a failing attempt whose
number exceeds `R` rejects, otherwise `onRetry(err, num + 1)` fires and
the next attempt runs; on final failure the promise rejects with
`operation.mainError()` — the error message seen most often, later
errors winning ties (`count >= mainErrorCount`).  `randomize` only
jitters the waiting times between attempts, which the logical model
elides.
-/

/-- One finished orchestration: the surfaced result, the number of
attempts actually made, and the attempt numbers passed to `onRetry`
(each of which `printResume` logs together with `resume.id`). -/
structure RetryOutcome (α : Type) where
  result : Except String α
  totalAttempts : Nat
  loggedRetries : List Nat
  deriving Repr

/-- The incremental main-error scan of the `retry` package: walk the
recorded errors keeping per-message counts, and keep the current error
whenever its count is at least the best count so far. -/
def mainErrorGo : List String → List (String × Nat) → Option String → Nat → Option String
  | [], _, best, _ => best
  | e :: rest, counts, best, bestCount =>
    let c := (match counts.lookup e with | some n => n | none => 0) + 1
    if bestCount ≤ c then
      mainErrorGo rest ((e, c) :: counts) (some e) c
    else
      mainErrorGo rest ((e, c) :: counts) best bestCount

/-- `operation.mainError()` over the list of errors of the attempts so
far. -/
def mainError (errors : List String) : Option String :=
  mainErrorGo errors [] none 0

/-- The attempt loop of `async-retry`: `remaining` retries are left,
`num` is the current attempt number (starting at 1).  A successful
attempt resolves immediately; a failing attempt with no retries left
rejects with the main error; otherwise `onRetry` fires with `num + 1`
and the next attempt runs. -/
def retryGo (f : Nat → Except String α) :
    Nat → Nat → List String → List Nat → RetryOutcome α
  | remaining, num, errors, logs =>
    match f num with
    | Except.ok a => ⟨Except.ok a, num, logs⟩
    | Except.error e =>
      match remaining with
      | 0 => ⟨Except.error ((mainError (errors ++ [e])).getD e), num, logs⟩
      | r + 1 => retryGo f r (num + 1) (errors ++ [e]) (logs ++ [num + 1])

/-- `retry(fn, { retries, ... })`: run the attempt loop from attempt 1
with `retries` retries remaining. -/
def runRetry (retries : Nat) (f : Nat → Except String α) : RetryOutcome α :=
  retryGo f retries 1 [] []

/-- The orchestration both `printResume` and `printPreview` install:
`retries: 3`. -/
def printRetry (f : Nat → Except String α) : RetryOutcome α :=
  runRetry 3 f

/-!
Continuous-capture state machine.  `processPage(index)` in
`generateResume`:
1. reads the `[data-page="index"]` element and its width,
2. saves `temporaryHtml = document.body.innerHTML` and replaces the
   body with a clone of just that element,
3. optionally injects CSS, settles, measures the height,
4. calls `page.pdf(...)` and pushes the buffer,
5. writes `document.body.innerHTML = temporaryHtml` back.
Step 5 is straight-line code after step 4: a rejected `page.pdf` skips
it and the exception propagates out of the `for` loop.  The model keeps
the body markup as an abstract string, `isolate body index` standing
for the cloned single-page markup, and an `exportPdf` oracle standing
for `page.pdf` on the current body.
-/

/-- One `processPage(index)` call: returns the body markup left in the
document and either the captured buffer or the propagated error. -/
def processPage (isolate : String → Nat → String)
    (exportPdf : String → Except String PageBuffer)
    (body : String) (index : Nat) : String × Except String PageBuffer :=
  let temporaryHtml := body
  let isolatedBody := isolate body index
  match exportPdf isolatedBody with
  | Except.ok buffer => (temporaryHtml, Except.ok buffer)
  | Except.error e => (isolatedBody, Except.error e)

/-- The capture loop `for (index = 1; index <= numberPages; index++)`
over an explicit index list: returns the final body markup, the indices
whose `processPage` call actually began, and the collected buffers or
the first propagated error (which ends the loop). -/
def captureLoop (isolate : String → Nat → String)
    (exportPdf : Nat → String → Except String PageBuffer) :
    String → List Nat → String × List Nat × Except String (List PageBuffer)
  | body, [] => (body, [], Except.ok [])
  | body, i :: rest =>
    match processPage isolate (exportPdf i) body i with
    | (body2, Except.ok buf) =>
      match captureLoop isolate exportPdf body2 rest with
      | (body3, processed, Except.ok bufs) => (body3, i :: processed, Except.ok (buf :: bufs))
      | (body3, processed, Except.error e) => (body3, i :: processed, Except.error e)
    | (body2, Except.error e) => (body2, [i], Except.error e)

/-!
Session teardown.  `generateResume` is one `try` block: `getBrowser()`
(connect), `browser.newPage()`, navigation, seeding, reload/wait,
capture, assembly, upload, then — still inside the `try`, after
everything succeeded — `await page.close(); await browser.disconnect();
return resumeUrl`.  The `catch` block only logs and rethrows
`InternalServerErrorException(ResumePrinterError, message)`; there is no
`finally`.  `generatePreview` has the same tail
(`page.close(); browser.disconnect()`) and no `try`/`catch` at all.
-/

/-- The stages of one `generateResume` attempt, in source order. -/
inductive Stage where
  | getBrowserS
  | newPageS
  | gotoS
  | seedS
  | reloadWaitS
  | captureS
  | assembleS
  | uploadS
  deriving Repr, DecidableEq

/-- Source order of the stages, for sequencing the oracle. -/
def Stage.idx : Stage → Nat
  | getBrowserS => 0
  | newPageS => 1
  | gotoS => 2
  | seedS => 3
  | reloadWaitS => 4
  | captureS => 5
  | assembleS => 6
  | uploadS => 7

/-- What one attempt did to its session: whether the browser connection
was acquired, how many `page.close()` and `browser.disconnect()` calls
ran, and the surfaced result. -/
structure SessionTrace where
  sessionAcquired : Bool
  tabsClosed : Nat
  disconnects : Nat
  result : Except String String
  deriving Repr

/-- One `generateResume` attempt under an outcome oracle telling which
stage, if any, throws first.  Control flow from the source: a throw
anywhere in the `try` jumps to the `catch`, which logs and rethrows
`ResumePrinterError`; `page.close()` and `browser.disconnect()` are the
last statements of the success path only. -/
def generateResumeRun (failAt : Option Stage) : SessionTrace :=
  match failAt with
  | some s =>
    if s.idx = Stage.getBrowserS.idx then
      { sessionAcquired := false
        tabsClosed := 0
        disconnects := 0
        result := Except.error "ResumePrinterError" }
    else
      { sessionAcquired := true
        tabsClosed := 0
        disconnects := 0
        result := Except.error "ResumePrinterError" }
  | none =>
    { sessionAcquired := true
      tabsClosed := 1
      disconnects := 1
      result := Except.ok "resumeUrl" }

/-- One `generatePreview` attempt under the same kind of oracle (the
preview path has no `catch`: the stage error itself propagates), with
teardown again only on the success path. -/
def generatePreviewRun (failAt : Option Stage) : SessionTrace :=
  match failAt with
  | some s =>
    if s.idx = Stage.getBrowserS.idx then
      { sessionAcquired := false
        tabsClosed := 0
        disconnects := 0
        result := Except.error "InvalidBrowserConnection" }
    else
      { sessionAcquired := true
        tabsClosed := 0
        disconnects := 0
        result := Except.error "stageError" }
  | none =>
    { sessionAcquired := true
      tabsClosed := 1
      disconnects := 1
      result := Except.ok "previewUrl" }

/-!
Loopback rewriting.  Both `generateResume` and `generatePreview` run
`[publicUrl, storageUrl].some((url) => /https?:\/\/localhost(:\d+)?/.test(url))`;
since the port group is optional, the test succeeds exactly when the
string contains `http://localhost` or `https://localhost` as a
substring.  When it does, the navigation URL and any intercepted
request URL starting with `storageUrl` are put through
`.replace(/localhost(:\d+)?/, (_match, port) => "host.docker.internal" + (port ?? ""))`:
the first occurrence of `localhost` with its optional `:digits` span is
replaced, and because the captured port text is re-emitted verbatim
after the alias, the result is exactly the first occurrence of the
9-character substring `localhost` replaced by `host.docker.internal`
with the rest of the string untouched.
-/

/-- Pattern `pat` occurs at the head of `text`. -/
def startsWithChars : List Char → List Char → Bool
  | [], _ => true
  | _ :: _, [] => false
  | p :: ps, c :: cs => p = c && startsWithChars ps cs

/-- Pattern `pat` occurs somewhere in `text`. -/
def hasSubstringChars (pat : List Char) : List Char → Bool
  | [] => pat.isEmpty
  | c :: cs => startsWithChars pat (c :: cs) || hasSubstringChars pat cs

/-- The test `/https?:\/\/localhost(:\d+)?/.test(url)`. -/
def matchesLoopback (url : String) : Bool :=
  hasSubstringChars "http://localhost".toList url.toList ||
    hasSubstringChars "https://localhost".toList url.toList

/-- Replace the first occurrence of `localhost` by
`host.docker.internal`, leaving everything else (any `:port` text
included) in place — the effect of the source's
`replace(/localhost(:\d+)?/, ...)` callback. -/
def rewriteChars : List Char → List Char
  | [] => []
  | c :: cs =>
    if startsWithChars "localhost".toList (c :: cs) then
      "host.docker.internal".toList ++ (c :: cs).drop 9
    else
      c :: rewriteChars cs

/-- The localhost-to-container-alias rewrite on a URL string. -/
def rewriteLocalhost (url : String) : String :=
  String.mk (rewriteChars url.toList)

/-- The navigation target computed by both generators: start from
`publicUrl` and rewrite it only when either configured origin matches
the loopback pattern. -/
def resolveUrl (publicUrl storageUrl : String) : String :=
  if matchesLoopback publicUrl || matchesLoopback storageUrl then
    rewriteLocalhost publicUrl
  else
    publicUrl

/-- Whether request interception is installed for this configuration
(the same condition guards `setRequestInterception(true)`). -/
def interceptionInstalled (publicUrl storageUrl : String) : Bool :=
  matchesLoopback publicUrl || matchesLoopback storageUrl

/-- The test `request.url().startsWith(storageUrl)`. -/
def urlStartsWith (requestUrl storageUrl : String) : Bool :=
  startsWithChars storageUrl.toList requestUrl.toList

/-- The installed `page.on("request", ...)` handler: requests whose URL
starts with `storageUrl` continue with the rewritten URL, every other
request continues unmodified. -/
def interceptRequest (storageUrl requestUrl : String) : String :=
  if urlStartsWith requestUrl storageUrl then rewriteLocalhost requestUrl
  else requestUrl

/-!
Concrete fixtures used by counterexamples and witnesses.
-/

/-- A request with two logical pages: page 1 has columns `["A"]`/`["B"]`,
page 2 has columns `["C"]`/`["D"]`. -/
def resumeTwoPages : ResumeDto :=
  { id := "id1"
    userId := "user1"
    title := "title1"
    data :=
      { metadata :=
          { layout := [(["A"], ["B"]), (["C"], ["D"])]
            css := { visible := false, value := "" } }
        extra := "payload" } }

/-- An attempt function that fails on every attempt. -/
def alwaysFailAttempt : Nat → Except String String :=
  fun _ => Except.error "boom"

/-- An attempt function that fails on attempt 1 and succeeds from
attempt 2 on. -/
def failOnceAttempt : Nat → Except String String :=
  fun n => if n = 1 then Except.error "boom" else Except.ok "url"

/-- A concrete isolation oracle: the cloned markup of page `i`. -/
def isolateEx : String → Nat → String :=
  fun _ i => "isolated-page-" ++ toString i

/-!
Helper lemmas.
-/

/-- Folding append over buffers starting from `acc` appends their
flattening. -/
theorem foldl_append_eq_join (bufs : List PageBuffer) (acc : List ColumnLayout) :
    bufs.foldl (fun pdf element => pdf ++ element) acc = acc ++ bufs.flatten := by
  induction bufs generalizing acc with
  | nil => simp
  | cons b bs ih => simp [ih, List.append_assoc]

/-- The main-error scan over a run of identical errors returns that
error. -/
theorem mainError_same (e : String) :
    mainError [e, e, e, e] = some e := by
  simp [mainError, mainErrorGo, List.lookup]

/-!
Claim C1 — retry bound.
-/

/-- Claim C1, counterexample: the claim says a request failing on every
attempt triggers exactly 3 total attempts, but the orchestrator is
`retry(fn, { retries: 3 })`, which makes 4 attempts (1 initial + 3
retries): on an always-failing attempt function the total attempt count
is 4, not 3. -/
theorem retry_three_attempts_false :
    (printRetry alwaysFailAttempt).totalAttempts = 4 ∧
    (printRetry alwaysFailAttempt).totalAttempts ≠ 3 := by
  constructor
  · rfl
  · decide

/-- Claim C1 (amended): the orchestrator makes up to 4 attempts total
(one initial attempt plus the configured 3 retries).  A request that
fails on every attempt triggers exactly 4 total attempts and then
surfaces the error; a request that fails once then succeeds yields
exactly one success with exactly one logged retry (logged as attempt
number 2, alongside the resume id). -/
theorem retry_bound_amended (e a : String) (f g : Nat → Except String String)
    (hf : ∀ n, f n = Except.error e)
    (hg1 : g 1 = Except.error e) (hg2 : g 2 = Except.ok a) :
    (printRetry f).result = Except.error e ∧
    (printRetry f).totalAttempts = 4 ∧
    (printRetry f).loggedRetries = [2, 3, 4] ∧
    (printRetry g).result = Except.ok a ∧
    (printRetry g).totalAttempts = 2 ∧
    (printRetry g).loggedRetries = [2] := by
  simp [printRetry, runRetry, retryGo, hf, hg1, hg2, mainError_same]

/-- Claim C1, witness for the amended theorem at the concrete attempt
functions. -/
theorem retry_bound_amended_witness :
    (printRetry alwaysFailAttempt).result = Except.error "boom" ∧
    (printRetry alwaysFailAttempt).totalAttempts = 4 ∧
    (printRetry alwaysFailAttempt).loggedRetries = [2, 3, 4] ∧
    (printRetry failOnceAttempt).result = Except.ok "url" ∧
    (printRetry failOnceAttempt).totalAttempts = 2 ∧
    (printRetry failOnceAttempt).loggedRetries = [2] :=
  retry_bound_amended "boom" "url" alwaysFailAttempt failOnceAttempt
    (fun _ => rfl) rfl rfl

/-!
Claim C2 — page count of the continuous path.
-/

/-- Claim C2, counterexample: for the two-logical-page request with no
format argument the code does NOT produce 2 single-page buffers and a
2-page final document — it first collapses the layout to one merged
page, so exactly 1 buffer and 1 final page result. -/
theorem continuous_page_count_false :
    ¬ ((generateResumeModel none resumeTwoPages).pagesBuffer.length = 2 ∧
        (generateResumeModel none resumeTwoPages).finalDocument.length = 2) := by
  decide

/-- Claim C2 (amended): for every request with no format argument, the
layout is first merged into a single logical page, so continuous
capture yields exactly 1 single-page PageBuffer (holding the
column-wise merge of all N logical pages) and the assembled
FinalDocument has exactly 1 page, that merged page. -/
theorem continuous_page_count_amended (resume : ResumeDto) :
    (generateResumeModel none resume).pagesBuffer =
      [[mergedPage resume.data.metadata.layout]] ∧
    (generateResumeModel none resume).pagesBuffer.length = 1 ∧
    (generateResumeModel none resume).finalDocument =
      [mergedPage resume.data.metadata.layout] ∧
    (generateResumeModel none resume).finalDocument.length = 1 := by
  simp [generateResumeModel, applyWebMerge, assemblePdf]

/-!
Claim C3 — session teardown.
-/

/-- Claim C3: the code violates the cleanup guarantee.  On an attempt
whose capture stage throws after the session was acquired, zero
tab-closes and zero disconnects occur (`page.close()` and
`browser.disconnect()` sit on the success path only and the `catch`
merely logs and rethrows; `generatePreview` has no `catch` at all) —
the session dangles.  Cleanup does run (once each) on the success
path. -/
theorem session_cleanup_skipped_on_failure :
    (generateResumeRun (some Stage.captureS)).sessionAcquired = true ∧
    (generateResumeRun (some Stage.captureS)).tabsClosed = 0 ∧
    (generateResumeRun (some Stage.captureS)).disconnects = 0 ∧
    (generateResumeRun none).tabsClosed = 1 ∧
    (generateResumeRun none).disconnects = 1 ∧
    (generatePreviewRun (some Stage.gotoS)).sessionAcquired = true ∧
    (generatePreviewRun (some Stage.gotoS)).tabsClosed = 0 ∧
    (generatePreviewRun (some Stage.gotoS)).disconnects = 0 := by
  decide

/-!
Claim C4 — restoration on capture failure.
-/

/-- Claim C4, counterexample: when the PDF export of page 1 fails, the
document body is NOT restored to its pre-capture state — the
restoration write is straight-line code after the export, so the body
is left holding page 1's isolated clone. -/
theorem restore_after_failed_capture_false :
    (processPage isolateEx (fun _ => Except.error "CaptureFailure") "originalBody" 1).1 ≠
      "originalBody" := by
  decide

/-- Claim C4 (amended): in continuous-capture mode the body is restored
to its pre-capture state after each successful capture of page k; if
the capture of page k fails, the body is left holding page k's
isolated clone and the error propagates, aborting the loop — no later
page begins in that attempt (so later pages are unaffected only
because they are never processed). -/
theorem restore_on_success_capture (isolate : String → Nat → String)
    (exportPdf : Nat → String → Except String PageBuffer)
    (body : String) (i : Nat) (rest : List Nat) :
    (∀ buf, exportPdf i (isolate body i) = Except.ok buf →
        processPage isolate (exportPdf i) body i = (body, Except.ok buf)) ∧
    (∀ e, exportPdf i (isolate body i) = Except.error e →
        processPage isolate (exportPdf i) body i = (isolate body i, Except.error e) ∧
          captureLoop isolate exportPdf body (i :: rest) =
            (isolate body i, [i], Except.error e)) := by
  constructor
  · intro buf h
    simp [processPage, h]
  · intro e h
    simp [processPage, captureLoop, h]

/-- Claim C4, witness for the amended theorem: a successful capture of
page 1 restores the body, and a failing capture of page 1 leaves the
clone in place and stops the loop before page 2. -/
theorem restore_on_success_capture_witness :
    processPage isolateEx ((fun _ _ => Except.ok [(["A"], ["B"])]) 1) "originalBody" 1 =
      ("originalBody", Except.ok [(["A"], ["B"])]) ∧
    captureLoop isolateEx (fun _ _ => Except.error "CaptureFailure") "originalBody" [1, 2] =
      (isolateEx "originalBody" 1, [1], Except.error "CaptureFailure") :=
  ⟨(restore_on_success_capture isolateEx (fun _ _ => Except.ok [(["A"], ["B"])])
      "originalBody" 1 [2]).1 [(["A"], ["B"])] rfl,
   ((restore_on_success_capture isolateEx (fun _ _ => Except.error "CaptureFailure")
      "originalBody" 1 [2]).2 "CaptureFailure" rfl).2⟩

/-!
Claim C5 — one buffer per request.
-/

/-- Claim C5: a request with format unset always yields exactly one
PageBuffer before assembly (the merged continuous layout), and a
request with format set yields exactly one PageBuffer containing one
physical page per logical page of the request — never N separate
buffers. -/
theorem single_buffer_per_branch (resume : ResumeDto) (fmt : PaperFormat) :
    (generateResumeModel none resume).pagesBuffer.length = 1 ∧
    (generateResumeModel (some fmt) resume).pagesBuffer.length = 1 ∧
    (generateResumeModel (some fmt) resume).pagesBuffer =
      [resume.data.metadata.layout] ∧
    ((generateResumeModel (some fmt) resume).pagesBuffer.map List.length) =
      [resume.data.metadata.layout.length] := by
  refine ⟨?_, ?_, ?_, ?_⟩ <;>
    simp [generateResumeModel, applyWebMerge]

/-!
Claim C6 — where the column-wise merge happens.
-/

/-- Claim C6, counterexample: in the formatted branch (format set) the
layouts are NOT merged into a single logical page — the seeded layout
of the two-page request keeps its 2 pages and differs from the merged
single-page layout. -/
theorem formatted_branch_merge_false :
    (generateResumeModel (some PaperFormat.A4) resumeTwoPages).resumeAfter.data.metadata.layout.length = 2 ∧
    (generateResumeModel (some PaperFormat.A4) resumeTwoPages).resumeAfter.data.metadata.layout ≠
      [mergedPage resumeTwoPages.data.metadata.layout] := by
  decide

/-- Claim C6 (amended): the column-wise merge happens in the continuous
(format-unset) branch, not the formatted one: there all logical pages'
two-column layouts are merged into a single logical page with order
preserved — pages `[A, B]` and `[C, D]` merge to `[A ++ C, B ++ D]`,
not interleaved — and the renderer is told there is one page. -/
theorem columnwise_merge_in_web_branch (a b c d : List String) (resume : ResumeDto) :
    mergedPage [(a, b), (c, d)] = (a ++ c, b ++ d) ∧
    (generateResumeModel none resume).resumeAfter.data.metadata.layout =
      [mergedPage resume.data.metadata.layout] ∧
    (generateResumeModel none resume).numberPages = 1 := by
  refine ⟨?_, ?_, ?_⟩ <;>
    simp [mergedPage, generateResumeModel, applyWebMerge]

/-!
Claim C7 — loopback rewriting.
-/

set_option maxRecDepth 10000 in
/-- Claim C7: when either configured origin matches the loopback
pattern, the navigation target is the public origin put through the
localhost-to-alias rewrite (port preserved) and every intercepted
request whose URL starts with the storage origin is rewritten the same
way; otherwise the public origin is returned unchanged.  In
particular, on origins `http://localhost:3000` / `http://localhost:3001/api`
the target becomes `http://host.docker.internal:3000` and a request to
`http://localhost:3001/api/x` becomes
`http://host.docker.internal:3001/api/x`, while a public origin of
`https://example.com` is never rewritten, whatever the storage origin
is. -/
theorem loopback_rewrite_spec :
    resolveUrl "http://localhost:3000" "http://localhost:3001/api" =
      "http://host.docker.internal:3000" ∧
    interceptionInstalled "http://localhost:3000" "http://localhost:3001/api" = true ∧
    interceptRequest "http://localhost:3001/api" "http://localhost:3001/api/x" =
      "http://host.docker.internal:3001/api/x" ∧
    (∀ storageUrl, resolveUrl "https://example.com" storageUrl = "https://example.com") ∧
    (∀ publicUrl storageUrl requestUrl,
      (matchesLoopback publicUrl || matchesLoopback storageUrl) = true →
        resolveUrl publicUrl storageUrl = rewriteLocalhost publicUrl ∧
          (urlStartsWith requestUrl storageUrl = true →
            interceptRequest storageUrl requestUrl = rewriteLocalhost requestUrl)) ∧
    (∀ publicUrl storageUrl,
      (matchesLoopback publicUrl || matchesLoopback storageUrl) = false →
        resolveUrl publicUrl storageUrl = publicUrl) := by
  refine ⟨by decide, by decide, by decide, ?_, ?_, ?_⟩
  · intro storageUrl
    have hpub : matchesLoopback "https://example.com" = false := by decide
    have hrw : rewriteLocalhost "https://example.com" = "https://example.com" := by decide
    cases hsto : matchesLoopback storageUrl with
    | true => simp [resolveUrl, hpub, hsto, hrw]
    | false => simp [resolveUrl, hpub, hsto]
  · intro publicUrl storageUrl requestUrl h
    refine ⟨by simp [resolveUrl, h], ?_⟩
    intro hreq
    simp [interceptRequest, hreq]
  · intro publicUrl storageUrl h
    simp [resolveUrl, h]

set_option maxRecDepth 10000 in
/-- Claim C7, witness: the quantified parts of the rewrite theorem at
concrete origins — a loopback storage origin forces the rewrite path
(which leaves the non-loopback public origin `https://example.com`
textually unchanged), and fully non-loopback origins are returned
unchanged. -/
theorem loopback_rewrite_spec_witness :
    resolveUrl "https://example.com" "http://localhost:3001/api" = "https://example.com" ∧
    resolveUrl "http://localhost:3000" "http://localhost:3001/api" =
      rewriteLocalhost "http://localhost:3000" ∧
    interceptRequest "http://localhost:3001/api" "http://localhost:3001/api/x" =
      rewriteLocalhost "http://localhost:3001/api/x" ∧
    resolveUrl "https://example.com" "https://cdn.example.com" = "https://example.com" := by
  have h := loopback_rewrite_spec
  refine ⟨h.2.2.2.1 "http://localhost:3001/api", ?_, ?_, ?_⟩
  · exact (h.2.2.2.2.1 "http://localhost:3000" "http://localhost:3001/api"
      "http://localhost:3001/api/x" (by decide)).1
  · exact (h.2.2.2.2.1 "http://localhost:3000" "http://localhost:3001/api"
      "http://localhost:3001/api/x" (by decide)).2 (by decide)
  · exact h.2.2.2.2.2 "https://example.com" "https://cdn.example.com" (by decide)

/-!
Claim C8 — mutation of the request.
-/

/-- Claim C8, counterexample: `generateResume` does not leave its input
unchanged — with no format argument it overwrites
`resume.data.metadata.layout` in place, so the two-page request comes
back different (its layout collapsed to one merged page). -/
theorem request_immutable_false :
    (generateResumeModel none resumeTwoPages).resumeAfter ≠ resumeTwoPages := by
  decide

/-- Claim C8 (amended): with format set the request is left entirely
unchanged; with format unset exactly one field is mutated —
`resume.data.metadata.layout` is overwritten with the single merged
page — while id, userId, title, the CSS block and the rest of the data
payload are unchanged. -/
theorem request_mutation_scope (resume : ResumeDto) (fmt : PaperFormat) :
    (generateResumeModel (some fmt) resume).resumeAfter = resume ∧
    (generateResumeModel none resume).resumeAfter.id = resume.id ∧
    (generateResumeModel none resume).resumeAfter.userId = resume.userId ∧
    (generateResumeModel none resume).resumeAfter.title = resume.title ∧
    (generateResumeModel none resume).resumeAfter.data.extra = resume.data.extra ∧
    (generateResumeModel none resume).resumeAfter.data.metadata.css =
      resume.data.metadata.css ∧
    (generateResumeModel none resume).resumeAfter.data.metadata.layout =
      [mergedPage resume.data.metadata.layout] := by
  refine ⟨?_, ?_, ?_, ?_, ?_, ?_, ?_⟩ <;>
    simp [generateResumeModel, applyWebMerge]

/-!
Claim C9 — the assembler.
-/

/-- Claim C9: the assembly fold produces one final document holding
every page of every buffer, in input order and unmodified (it equals
the flattening of the buffer list), and the page count is preserved
exactly — the sum of the buffers' page counts equals the final
document's page count. -/
theorem assembler_preserves_pages (pagesBuffer : List PageBuffer) :
    assemblePdf pagesBuffer = pagesBuffer.flatten ∧
    (assemblePdf pagesBuffer).length = (pagesBuffer.map List.length).sum := by
  have h : assemblePdf pagesBuffer = pagesBuffer.flatten := by
    simpa using foldl_append_eq_join pagesBuffer []
  exact ⟨h, by simp [h]⟩

/-!
Claim C10 — idempotence of the merge.
-/

/-- Claim C10: the column-wise page merge is idempotent — merging an
already-merged single-page layout returns that same layout, the
in-place merge mutation is idempotent on the DTO, and a retried
attempt running on a request collapsed by a previous attempt computes
the same buffers and the same page count of 1. -/
theorem merge_idempotent (layout : List ColumnLayout) (resume : ResumeDto) :
    mergedPage [mergedPage layout] = mergedPage layout ∧
    applyWebMerge none (applyWebMerge none resume) = applyWebMerge none resume ∧
    (generateResumeModel none ((generateResumeModel none resume).resumeAfter)).pagesBuffer =
      (generateResumeModel none resume).pagesBuffer ∧
    (generateResumeModel none ((generateResumeModel none resume).resumeAfter)).numberPages = 1 := by
  refine ⟨?_, ?_, ?_, ?_⟩ <;>
    simp [generateResumeModel, applyWebMerge, mergedPage]

end Printer
